import Mathlib

/-!
Verification development for the fabric-webgui backend.

The definitions below are a shallow embedding of the two subsystems covered
by the design spec:

* the draft session store and its route-level consumers
  (`src/backend/app/routes/slices.py`), and
* the terminal relay session lifecycle, key loader and control-message
  dispatch (`src/backend/app/routes/terminal.py`).

Python dictionaries are embedded as functions `String → Option _`; calls into
external systems (the FABlib upstream, paramiko decoders, the network) are
parameters of the embedded operations, supplying each external call's outcome.
-/

namespace FabricGui

/-! ### Draft session store (src/backend/app/routes/slices.py, lines 22-53)

The Python module keeps two module-level dicts guarded by one lock:
`_draft_slices : dict[str, Any]` and `_draft_is_new : dict[str, bool]`.
Requests are serialized per store operation by the lock, so each operation is
embedded as a pure function on the whole store state.  The payload type is a
parameter `α` (slice objects are opaque to the store). -/

structure DraftStore (α : Type) where
  draft_slices : String → Option α
  draft_is_new : String → Option Bool

/-- The initial state: both dicts start empty. -/
def empty_store {α : Type} : DraftStore α :=
  ⟨fun _ => none, fun _ => none⟩

/-- Embedding of `_store_draft(name, slice_obj, is_new)`: insert or overwrite
in both dicts. -/
def store_draft {α : Type} (s : DraftStore α) (name : String) (slice_obj : α)
    (is_new : Bool) : DraftStore α :=
  ⟨fun n => if n = name then some slice_obj else s.draft_slices n,
   fun n => if n = name then some is_new else s.draft_is_new n⟩

/-- Embedding of `_pop_draft(name)`: `dict.pop(name, default)` on both dicts,
returning `(obj, is_new)` (default `None` resp. `True`) and the store with
`name` removed from both dicts. -/
def pop_draft {α : Type} (s : DraftStore α) (name : String) :
    (Option α × Bool) × DraftStore α :=
  ((s.draft_slices name, (s.draft_is_new name).getD true),
   ⟨fun n => if n = name then none else s.draft_slices n,
    fun n => if n = name then none else s.draft_is_new n⟩)

/-- Embedding of `_get_draft(name)`: read without removal. -/
def get_draft {α : Type} (s : DraftStore α) (name : String) : Option α :=
  s.draft_slices name

/-- Embedding of `_is_draft(name)`: `name in _draft_slices`. -/
def is_draft {α : Type} (s : DraftStore α) (name : String) : Bool :=
  (s.draft_slices name).isSome

/-- Embedding of `_is_new_draft(name)`: `_draft_is_new.get(name, True)`. -/
def is_new_draft {α : Type} (s : DraftStore α) (name : String) : Bool :=
  (s.draft_is_new name).getD true

/-- One store operation, as named by the store's contract: `put`, `take`,
`peek`, `contains` and the isNew lookup.  `run_op` gives the store state after
the operation; the three read operations acquire the lock, read, and leave the
dicts untouched. -/
inductive StoreOp (α : Type) where
  | put (name : String) (p : α) (is_new : Bool)
  | take (name : String)
  | peek (name : String)
  | contains (name : String)
  | isNewLookup (name : String)

/-- State transition of each store operation. -/
def run_op {α : Type} (s : DraftStore α) : StoreOp α → DraftStore α
  | .put n p b => store_draft s n p b
  | .take n => (pop_draft s n).2
  | .peek _ => s
  | .contains _ => s
  | .isNewLookup _ => s

/-- The two parallel dicts track exactly the same key set. -/
def same_keys {α : Type} (s : DraftStore α) : Prop :=
  ∀ n, (s.draft_slices n).isSome = (s.draft_is_new n).isSome

/-! ### Route-level consumers of the store
(src/backend/app/routes/slices.py, lines 128-186)

Each route is embedded with the outcomes of its external FABlib calls as
parameters: `fetch`/`reload` is `some obj` when the upstream call returns a
slice object and `none` when it raises; `submit_fails` tells whether
`draft.submit()` raises. -/

/-- Outcome of a route handler: a response body or an `HTTPException` with a
status code. -/
inductive HttpResult (α : Type) where
  | ok (body : α)
  | err (code : Nat) (detail : String)
deriving DecidableEq

/-- Embedding of the `submit_slice` route: pop the draft; if present, submit
upstream; on upstream failure restore the draft with its original `is_new`
flag and raise 500; if absent raise 400. -/
def submit_slice {α : Type} (submit_fails : Bool) (s : DraftStore α)
    (name : String) : HttpResult α × DraftStore α :=
  let popped := pop_draft s name
  match popped.1.1 with
  | some draft =>
      if submit_fails then
        (HttpResult.err 500 "submit failed",
         store_draft popped.2 name draft popped.1.2)
      else
        (HttpResult.ok draft, popped.2)
  | none => (HttpResult.err 400 "No pending changes to submit", popped.2)

/-- Embedding of the `refresh_slice` route: drop any draft, reload from
FABRIC (`reload` is the outcome of `fablib.get_slice` + `update`), and on
success store the fresh copy with `is_new = false`. -/
def refresh_slice {α : Type} (reload : Option α) (s : DraftStore α)
    (name : String) : HttpResult α × DraftStore α :=
  let popped := pop_draft s name
  match reload with
  | some obj => (HttpResult.ok obj, store_draft popped.2 name obj false)
  | none => (HttpResult.err 500 "refresh failed", popped.2)

/-- Embedding of the `get_slice` route: `_get_slice_obj` returns the draft if
present, otherwise the upstream copy (`fetch`); when the name was not a draft,
the loaded copy is stored with `is_new = false`; an upstream failure raises
404 and leaves the store unchanged. -/
def get_slice {α : Type} (fetch : Option α) (s : DraftStore α)
    (name : String) : HttpResult α × DraftStore α :=
  match get_draft s name with
  | some draft => (HttpResult.ok draft, s)
  | none =>
      match fetch with
      | some obj => (HttpResult.ok obj, store_draft s name obj false)
      | none => (HttpResult.err 404 "Slice not found", s)

/-! ### Theorems about the draft store -/

/-- C4: performing take twice in a row on a name yields `(absent, true)` the
second time: the first take removes the record from both dicts, so the second
take finds nothing and returns the defaults `(None, True)`. -/
theorem pop_draft_twice_absent_true {α : Type} (s : DraftStore α) (name : String) :
    (pop_draft ((pop_draft s name).2) name).1 = (none, true) ∧
    ((pop_draft s name).2).draft_slices name = none ∧
    ((pop_draft s name).2).draft_is_new name = none := by
  refine ⟨?_, ?_, ?_⟩ <;> simp [pop_draft]

/-- C4 witness: the double-take property evaluated on a concrete store holding
one draft named `exp1`. -/
theorem pop_draft_twice_absent_true_witness :
    (pop_draft ((pop_draft (store_draft (empty_store (α := Nat)) "exp1" 7 true) "exp1").2) "exp1").1
      = (none, true) ∧
    ((pop_draft (store_draft (empty_store (α := Nat)) "exp1" 7 true) "exp1").2).draft_slices "exp1" = none ∧
    ((pop_draft (store_draft (empty_store (α := Nat)) "exp1" 7 true) "exp1").2).draft_is_new "exp1" = none :=
  pop_draft_twice_absent_true (store_draft (empty_store (α := Nat)) "exp1" 7 true) "exp1"

/-- C5: `put(n, p, true)` immediately followed by `take(n)` returns exactly
`(p, true)`. -/
theorem store_then_pop_roundtrip {α : Type} (s : DraftStore α) (name : String) (p : α) :
    (pop_draft (store_draft s name p true) name).1 = (some p, true) := by
  simp [pop_draft, store_draft]

/-- C5 witness: the round trip evaluated on the empty store with name `exp1`
and payload `5`. -/
theorem store_then_pop_roundtrip_witness :
    (pop_draft (store_draft (empty_store (α := Nat)) "exp1" 5 true) "exp1").1 = (some 5, true) :=
  store_then_pop_roundtrip (empty_store (α := Nat)) "exp1" 5

/-- C3: if a name holds a draft with payload `p` and flag `b` and the upstream
submit fails, the store afterwards again holds a record for that name with the
same payload and the same flag, so the caller can retry. -/
theorem submit_failure_restores_draft {α : Type} (s : DraftStore α)
    (name : String) (p : α) (b : Bool)
    (hp : s.draft_slices name = some p) (hb : s.draft_is_new name = some b) :
    ((submit_slice true s name).2).draft_slices name = some p ∧
    ((submit_slice true s name).2).draft_is_new name = some b := by
  simp [submit_slice, pop_draft, hp, hb, store_draft]

/-- C3 witness: a draft `exp2` loaded with `isNew = false`, upstream submit
failing, evaluated concretely: the draft is restored with the same payload and
flag. -/
theorem submit_failure_restores_draft_witness :
    ((submit_slice true (store_draft (empty_store (α := Nat)) "exp2" 9 false) "exp2").2).draft_slices "exp2"
      = some 9 ∧
    ((submit_slice true (store_draft (empty_store (α := Nat)) "exp2" 9 false) "exp2").2).draft_is_new "exp2"
      = some false :=
  submit_failure_restores_draft (store_draft (empty_store (α := Nat)) "exp2" 9 false)
    "exp2" 9 false (by decide) (by decide)

/-- C6: after any execution of the refresh route, whenever the store still
holds a draft for the refreshed name, that draft's flag is `isNew = false`
(on a successful reload the fresh copy is stored with `is_new = false`; on a
reload failure no draft for the name remains). -/
theorem refresh_leaves_is_new_false {α : Type} (reload : Option α)
    (s : DraftStore α) (name : String)
    (h : is_draft ((refresh_slice reload s name).2) name = true) :
    is_new_draft ((refresh_slice reload s name).2) name = false := by
  cases reload with
  | some obj => simp [refresh_slice, store_draft, is_new_draft]
  | none =>
      exfalso
      simp [refresh_slice, pop_draft, is_draft] at h

/-- C6 witness: refreshing `exp2` with a successful reload, evaluated
concretely: the stored draft exists and its flag is `false`. -/
theorem refresh_leaves_is_new_false_witness :
    is_new_draft ((refresh_slice (some 3) (store_draft (empty_store (α := Nat)) "exp2" 1 true) "exp2").2) "exp2"
      = false :=
  refresh_leaves_is_new_false (some 3)
    (store_draft (empty_store (α := Nat)) "exp2" 1 true) "exp2" (by decide)

/-- C9: a successful GET of a name with no draft record stores the freshly
loaded copy with `isNew = false`, so afterwards the store contains the name:
the first read starts an edit session. -/
theorem get_slice_first_read_starts_draft {α : Type} (fetch : Option α)
    (s : DraftStore α) (name : String) (p : α)
    (hnd : s.draft_slices name = none) (hf : fetch = some p) :
    (get_slice fetch s name).1 = HttpResult.ok p ∧
    ((get_slice fetch s name).2).draft_slices name = some p ∧
    ((get_slice fetch s name).2).draft_is_new name = some false ∧
    is_draft ((get_slice fetch s name).2) name = true := by
  subst hf
  simp [get_slice, get_draft, hnd, store_draft, is_draft]

/-- C9 witness: reading `exp3` from the empty store with a successful upstream
fetch, evaluated concretely. -/
theorem get_slice_first_read_starts_draft_witness :
    (get_slice (some 4) (empty_store (α := Nat)) "exp3").1 = HttpResult.ok 4 ∧
    ((get_slice (some 4) (empty_store (α := Nat)) "exp3").2).draft_slices "exp3" = some 4 ∧
    ((get_slice (some 4) (empty_store (α := Nat)) "exp3").2).draft_is_new "exp3" = some false ∧
    is_draft ((get_slice (some 4) (empty_store (α := Nat)) "exp3").2) "exp3" = true :=
  get_slice_first_read_starts_draft (some 4) (empty_store (α := Nat)) "exp3" 4 rfl rfl

/-- C10: the store is two parallel tables, and every store operation (put,
take, and the read operations peek, contains and the isNew lookup, which leave
the state unchanged) preserves the invariant that the two tables have exactly
the same key set. -/
theorem store_ops_preserve_same_keys {α : Type} (s : DraftStore α)
    (op : StoreOp α) (h : same_keys s) :
    same_keys (run_op s op) := by
  cases op with
  | put n p b =>
      intro m
      by_cases hm : m = n <;> simp [run_op, store_draft, hm, h m]
  | take n =>
      intro m
      by_cases hm : m = n <;> simp [run_op, pop_draft, hm, h m]
  | peek n => exact h
  | contains n => exact h
  | isNewLookup n => exact h

/-- C10 witness: the invariant holds of the empty store and is preserved by a
concrete put. -/
theorem store_ops_preserve_same_keys_witness :
    same_keys (run_op (empty_store (α := Nat)) (StoreOp.put "exp1" 2 true)) :=
  store_ops_preserve_same_keys (empty_store (α := Nat)) (StoreOp.put "exp1" 2 true)
    (fun _ => rfl)

/-! ### Key loader (src/backend/app/routes/terminal.py, lines 18-31)

`_load_private_key` iterates over `key_classes = [Ed25519Key, ECDSAKey,
RSAKey]`, returns the first decoder that does not raise, remembers the last
exception in `last_err`, and after the loop raises
`SSHException(f"Cannot load key {path}: {last_err}")`.  The outcome of each
decoder on the given file is the parameter `decode` (a file that is absent or
unreadable is a `decode` on which every algorithm errors); the key handle type
is a parameter `K`.  Alongside the result, the embedding returns the list of
decoders actually invoked, in invocation order. -/

/-- The supported key algorithms, in the source's order. -/
inductive KeyAlg where
  | ed25519
  | ecdsa
  | rsa
deriving DecidableEq

/-- The source's `key_classes` list: modern elliptic curve, classic elliptic
curve, RSA. -/
def key_classes : List KeyAlg := [KeyAlg.ed25519, KeyAlg.ecdsa, KeyAlg.rsa]

/-- The error message raised when every decoder fails, from the source's
format string (the Python `None` placeholder is unreachable because
`key_classes` is non-empty). -/
def key_load_msg (path : String) (last_err : Option String) : String :=
  "Cannot load key " ++ path ++ ": " ++ last_err.getD "None"

/-- The `for cls in key_classes` loop of `_load_private_key`, threading
`last_err` and recording every decoder invocation. -/
def load_key_loop {K : Type} (path : String) (decode : KeyAlg → Except String K) :
    List KeyAlg → Option String → Except String K × List KeyAlg
  | [], last_err => (Except.error (key_load_msg path last_err), [])
  | cls :: rest, _ =>
      match decode cls with
      | Except.ok k => (Except.ok k, [cls])
      | Except.error e =>
          let r := load_key_loop path decode rest (some e)
          (r.1, cls :: r.2)

/-- Embedding of `_load_private_key(path)`: run the loop over `key_classes`
with `last_err = None`. -/
def load_private_key {K : Type} (path : String)
    (decode : KeyAlg → Except String K) : Except String K × List KeyAlg :=
  load_key_loop path decode key_classes none

/-- Spec-side description (from the spec's words, for comparison with the
source's loop): the first success over the fixed ordered algorithm list. -/
def first_success {K : Type} (decode : KeyAlg → Except String K) : Option K :=
  key_classes.findSome? fun a => (decode a).toOption

/-- C7: the key loader tries the decoders in the fixed order
ed25519, ecdsa, rsa — the invocation list is always a duplicate-free prefix of
`key_classes`, so no decoder is ever retried — and returns the handle of the
first decoder that succeeds; when every decoder fails it returns the key-load
error carrying the last-seen decode error (the RSA decoder's, the last one
tried). -/
theorem load_private_key_first_success_last_error {K : Type} (path : String)
    (decode : KeyAlg → Except String K) :
    (load_private_key path decode).2 <+: key_classes ∧
    (load_private_key path decode).2.Nodup ∧
    (∀ k, first_success decode = some k →
       (load_private_key path decode).1 = Except.ok k) ∧
    (first_success decode = none →
       ∃ e, decode KeyAlg.rsa = Except.error e ∧
         (load_private_key path decode).1 =
           Except.error (key_load_msg path (some e))) := by
  rcases h1 : decode KeyAlg.ed25519 with k1 | e1 <;>
    rcases h2 : decode KeyAlg.ecdsa with k2 | e2 <;>
      rcases h3 : decode KeyAlg.rsa with k3 | e3 <;>
        simp [load_private_key, load_key_loop, key_classes, first_success,
          h1, h2, h3, Except.toOption, List.findSome?]

/-- C7 witness: the loader evaluated on a concrete decode environment where
the first two algorithms fail and RSA succeeds. -/
theorem load_private_key_first_success_last_error_witness :
    (load_private_key "bastion_key"
        (fun a => match a with
          | KeyAlg.ed25519 => (Except.error "not ed25519" : Except String Nat)
          | KeyAlg.ecdsa => Except.error "not ecdsa"
          | KeyAlg.rsa => Except.ok 11)).2 <+: key_classes ∧
    (load_private_key "bastion_key"
        (fun a => match a with
          | KeyAlg.ed25519 => (Except.error "not ed25519" : Except String Nat)
          | KeyAlg.ecdsa => Except.error "not ecdsa"
          | KeyAlg.rsa => Except.ok 11)).2.Nodup ∧
    (∀ k, first_success
        (fun a => match a with
          | KeyAlg.ed25519 => (Except.error "not ed25519" : Except String Nat)
          | KeyAlg.ecdsa => Except.error "not ecdsa"
          | KeyAlg.rsa => Except.ok 11) = some k →
       (load_private_key "bastion_key"
        (fun a => match a with
          | KeyAlg.ed25519 => (Except.error "not ed25519" : Except String Nat)
          | KeyAlg.ecdsa => Except.error "not ecdsa"
          | KeyAlg.rsa => Except.ok 11)).1 = Except.ok k) ∧
    (first_success
        (fun a => match a with
          | KeyAlg.ed25519 => (Except.error "not ed25519" : Except String Nat)
          | KeyAlg.ecdsa => Except.error "not ecdsa"
          | KeyAlg.rsa => Except.ok 11) = none →
       ∃ e, (fun a => match a with
          | KeyAlg.ed25519 => (Except.error "not ed25519" : Except String Nat)
          | KeyAlg.ecdsa => Except.error "not ecdsa"
          | KeyAlg.rsa => Except.ok 11) KeyAlg.rsa = Except.error e ∧
         (load_private_key "bastion_key"
        (fun a => match a with
          | KeyAlg.ed25519 => (Except.error "not ed25519" : Except String Nat)
          | KeyAlg.ecdsa => Except.error "not ecdsa"
          | KeyAlg.rsa => Except.ok 11)).1 =
           Except.error (key_load_msg "bastion_key" (some e))) :=
  load_private_key_first_success_last_error "bastion_key"
    (fun a => match a with
      | KeyAlg.ed25519 => (Except.error "not ed25519" : Except String Nat)
      | KeyAlg.ecdsa => Except.error "not ecdsa"
      | KeyAlg.rsa => Except.ok 11)

/-! ### Client control messages in the receive loop
(src/backend/app/routes/terminal.py, lines 185-198)

An inbound message is the parsed JSON object; only the fields the dispatch
code reads are modelled (`parsed.get("type")`, `parsed["data"]`,
`parsed.get("cols", 80)`, `parsed.get("rows", 24)`), each `Option`-valued
since a JSON object may omit any of them.  The shell channel's observable
state is its reported terminal dimensions, the data written to it and the
trace of `resize_pty` invocations. -/

/-- A parsed inbound JSON message, restricted to the fields the dispatch
reads. -/
structure Msg where
  msg_type : Option String
  data : Option String
  cols : Option Nat
  rows : Option Nat
deriving DecidableEq

/-- Observable state of the paramiko shell channel. -/
structure ShellState where
  cols : Nat
  rows : Nat
  written : List String
  resizeCalls : List (Nat × Nat)
deriving DecidableEq

/-- Embedding of `shell.resize_pty(width, height)`: set the reported
dimensions and record the invocation. -/
def resize_pty (sh : ShellState) (width height : Nat) : ShellState :=
  { sh with
    cols := width
    rows := height
    resizeCalls := sh.resizeCalls ++ [(width, height)] }

/-- Embedding of `shell.send(data)`. -/
def shell_send (sh : ShellState) (d : String) : ShellState :=
  { sh with written := sh.written ++ [d] }

/-- One iteration of the receive loop's dispatch on a successfully decoded
message: `type == "input"` writes `parsed["data"]` to the shell (a missing
`data` field raises `KeyError`, caught by the loop's `except`, which ends the
session — result `none`); `type == "resize"` calls `resize_pty` with defaults
80 and 24 for missing fields; any other type is ignored. -/
def handle_message (sh : ShellState) (m : Msg) : Option ShellState :=
  if m.msg_type = some "input" then
    match m.data with
    | some d => some (shell_send sh d)
    | none => none
  else if m.msg_type = some "resize" then
    some (resize_pty sh (m.cols.getD 80) (m.rows.getD 24))
  else
    some sh

/-- C8: a message of type `resize` invokes `resize_pty` exactly once, with the
message's cols and rows and the defaults 80 and 24 for absent fields, and
handling the same resize message again leaves the reported dimensions
unchanged. -/
theorem resize_message_exactly_once_idempotent (sh : ShellState) (m : Msg)
    (h : m.msg_type = some "resize") :
    handle_message sh m
      = some (resize_pty sh (m.cols.getD 80) (m.rows.getD 24)) ∧
    (resize_pty sh (m.cols.getD 80) (m.rows.getD 24)).resizeCalls
      = sh.resizeCalls ++ [(m.cols.getD 80, m.rows.getD 24)] ∧
    (∀ sh1 sh2, handle_message sh m = some sh1 →
       handle_message sh1 m = some sh2 →
       sh2.cols = sh1.cols ∧ sh2.rows = sh1.rows) := by
  refine ⟨?_, rfl, ?_⟩
  · simp [handle_message, h]
  · intro sh1 sh2 h1 h2
    simp [handle_message, h] at h1 h2
    subst h1
    subst h2
    simp [resize_pty]

/-- C8 witness: a concrete resize message with `cols` present and `rows`
absent, applied twice to a concrete shell state. -/
theorem resize_message_exactly_once_idempotent_witness :
    handle_message ⟨80, 24, [], []⟩ ⟨some "resize", none, some 120, none⟩
      = some (resize_pty ⟨80, 24, [], []⟩
          ((some 120).getD 80) ((none : Option Nat).getD 24)) ∧
    (resize_pty (⟨80, 24, [], []⟩ : ShellState)
        ((some 120).getD 80) ((none : Option Nat).getD 24)).resizeCalls
      = ([] : List (Nat × Nat)) ++ [((some 120).getD 80, (none : Option Nat).getD 24)] ∧
    (∀ sh1 sh2,
       handle_message ⟨80, 24, [], []⟩ ⟨some "resize", none, some 120, none⟩ = some sh1 →
       handle_message sh1 ⟨some "resize", none, some 120, none⟩ = some sh2 →
       sh2.cols = sh1.cols ∧ sh2.rows = sh1.rows) :=
  resize_message_exactly_once_idempotent ⟨80, 24, [], []⟩
    ⟨some "resize", none, some 120, none⟩ rfl

/-! ### Terminal session lifecycle
(src/backend/app/routes/terminal.py, lines 110-224)

`terminal_ws` is embedded as a function from an environment — the outcomes of
the session's external calls — to the trace of its observable actions, in
program order.  The environment fixes which setup stage (if any) raises and
with what message, the strings interpolated into the progress messages, why
the relay loop eventually ends, and whether each close call in the `finally`
block raises.  Transport sends are modelled as succeeding; the claims under
study quantify over failures of the six setup stages, which the `except`
block at lines 157-166 handles.

The forwarded tunnel channel is a logical stream inside the bastion
connection, so closing the bastion releases it; the failure handler closes
only the bastion (line 161-165), and the normal teardown closes shell, target
and bastion in three independent `try`/`except` blocks (lines 202-214). -/

/-- The three resources the route closes during teardown. -/
inductive Resource where
  | shell
  | target
  | bastion
deriving DecidableEq

/-- Why the receive loop ends: the client disconnected
(`WebSocketDisconnect`), the message failed to decode or lacked a required
field (`json.loads` / `KeyError`), or writing to the shell channel raised
because the channel died (all caught by the loop's two `except` arms). -/
inductive EndCause where
  | disconnect
  | decodeError
  | channelError
deriving DecidableEq

/-- An observable action of `terminal_ws`. -/
inductive Ev where
  | send (s : String)
  | wsClose
  | openRes (r : Resource)
  | openTunnel
  | relayStart
  | relayEnd (c : EndCause)
  | cancelPoll
  | closeAttempt (r : Resource) (raised : Bool)
deriving DecidableEq

/-- Which stage of the setup phase raises, carrying `str(e)`; `ok` means every
stage succeeded.  The stages are the sequential blocks of lines 120-155:
node lookup, `_get_ssh_config`, `_connect_bastion` (bastion key load, connect,
authenticate), `_open_tunnel`, `_connect_target` (slice key load, target
authentication, shell request). -/
inductive SetupOutcome where
  | lookupFail (e : String)
  | configFail (e : String)
  | bastionFail (e : String)
  | tunnelFail (e : String)
  | targetFail (e : String)
  | ok
deriving DecidableEq

/-- Environment of one terminal session: outcomes of all external calls and
the strings they return. -/
structure Env where
  slice_name : String
  node_name : String
  management_ip : String
  username : String
  bastion_host : String
  outcome : SetupOutcome
  relay_end : EndCause
  shell_close_raises : Bool
  target_close_raises : Bool
  bastion_close_raises : Bool

/-- Progress and error messages, verbatim from the source's f-strings. -/
def m_lookup (env : Env) : String :=
  "[terminal] Looking up node '" ++ env.node_name ++ "' in slice '"
    ++ env.slice_name ++ "'...\r\n"

/-- Error line for a node without a management IP (line 130). -/
def no_ip_msg : String :=
  "\x1b[31m[terminal] Error: Node has no management IP.\x1b[0m\r\n"

/-- Progress line after a successful node lookup (line 134). -/
def m_found (env : Env) : String :=
  "[terminal] Node found: " ++ env.username ++ "@" ++ env.management_ip ++ "\r\n"

/-- Progress line before loading the SSH configuration (line 137). -/
def m_loading : String := "[terminal] Loading SSH keys and configuration...\r\n"

/-- Progress line before connecting to the bastion (line 141). -/
def m_connecting (env : Env) : String :=
  "[terminal] Connecting to bastion " ++ env.bastion_host ++ "...\r\n"

/-- Progress line after the bastion connected (line 143). -/
def m_bastion_ok : String := "[terminal] Bastion connected.\r\n"

/-- Progress line before opening the tunnel (line 146). -/
def m_tunnel (env : Env) : String :=
  "[terminal] Opening tunnel to " ++ env.management_ip ++ ":22...\r\n"

/-- Progress line after the tunnel opened (line 148). -/
def m_tunnel_ok : String := "[terminal] Tunnel established.\r\n"

/-- Progress line before authenticating to the target (line 151). -/
def m_auth (env : Env) : String :=
  "[terminal] Authenticating as " ++ env.username ++ "@" ++ env.management_ip
    ++ "...\r\n"

/-- Success line once the shell is open (line 155). -/
def m_connected : String := "\x1b[32m[terminal] Connected.\x1b[0m\r\n\r\n"

/-- The single error line of the `except` handler (line 159). -/
def ssh_fail_msg (e : String) : String :=
  "\r\n\x1b[31m[terminal] SSH connection failed: " ++ e ++ "\x1b[0m\r\n"

/-- Trace of the early return when the node has no management IP
(lines 129-132). -/
def no_ip_trace (env : Env) : List Ev :=
  [Ev.send (m_lookup env), Ev.send no_ip_msg, Ev.wsClose]

/-- Trace of the `except` handler (lines 157-166): send the single error
line, close the websocket, and close the bastion when one was opened. -/
def fail_tail (env : Env) (e : String) (bastion_open : Bool) : List Ev :=
  [Ev.send (ssh_fail_msg e), Ev.wsClose] ++
    (if bastion_open then [Ev.closeAttempt Resource.bastion env.bastion_close_raises]
     else [])

/-- Trace of the `finally` block (lines 202-214): three independent close
attempts, shell then target then bastion, each inside its own
`try`/`except Exception: pass`. -/
def teardown_trace (env : Env) : List Ev :=
  [Ev.closeAttempt Resource.shell env.shell_close_raises,
   Ev.closeAttempt Resource.target env.target_close_raises,
   Ev.closeAttempt Resource.bastion env.bastion_close_raises]

/-- Embedding of the `terminal_ws` handler as the trace of its observable
actions, by cases on which stage raises.  Every stage sends its progress line
before running; a raise jumps to the `except` handler; after a fully
successful setup the relay loop runs until `relay_end`, the polling duty is
cancelled, and the `finally` teardown runs. -/
def terminal_ws (env : Env) : List Ev :=
  match env.outcome with
  | SetupOutcome.lookupFail e => Ev.send (m_lookup env) :: fail_tail env e false
  | SetupOutcome.configFail e =>
      if env.management_ip = "" then no_ip_trace env
      else [Ev.send (m_lookup env), Ev.send (m_found env), Ev.send m_loading]
        ++ fail_tail env e false
  | SetupOutcome.bastionFail e =>
      if env.management_ip = "" then no_ip_trace env
      else [Ev.send (m_lookup env), Ev.send (m_found env), Ev.send m_loading,
            Ev.send (m_connecting env)] ++ fail_tail env e false
  | SetupOutcome.tunnelFail e =>
      if env.management_ip = "" then no_ip_trace env
      else [Ev.send (m_lookup env), Ev.send (m_found env), Ev.send m_loading,
            Ev.send (m_connecting env), Ev.openRes Resource.bastion,
            Ev.send m_bastion_ok, Ev.send (m_tunnel env)]
        ++ fail_tail env e true
  | SetupOutcome.targetFail e =>
      if env.management_ip = "" then no_ip_trace env
      else [Ev.send (m_lookup env), Ev.send (m_found env), Ev.send m_loading,
            Ev.send (m_connecting env), Ev.openRes Resource.bastion,
            Ev.send m_bastion_ok, Ev.send (m_tunnel env), Ev.openTunnel,
            Ev.send m_tunnel_ok, Ev.send (m_auth env)]
        ++ fail_tail env e true
  | SetupOutcome.ok =>
      if env.management_ip = "" then no_ip_trace env
      else [Ev.send (m_lookup env), Ev.send (m_found env), Ev.send m_loading,
            Ev.send (m_connecting env), Ev.openRes Resource.bastion,
            Ev.send m_bastion_ok, Ev.send (m_tunnel env), Ev.openTunnel,
            Ev.send m_tunnel_ok, Ev.send (m_auth env),
            Ev.openRes Resource.target, Ev.openRes Resource.shell,
            Ev.send m_connected, Ev.relayStart, Ev.relayEnd env.relay_end,
            Ev.cancelPoll]
        ++ teardown_trace env

/-- A line the client perceives as an error: the source wraps exactly its
error lines in the red highlight escape `ESC[31m` (optionally after a leading
CR LF). -/
def red_escape : List Char := ['\x1b', '[', '3', '1', 'm']

/-- Boolean list-prefix test used to classify a sent line. -/
def starts_with : List Char → List Char → Bool
  | [], _ => true
  | _ :: _, [] => false
  | p :: ps, c :: cs => if p = c then starts_with ps cs else false

/-- A sent line counts as an error line when it starts with the red highlight
escape, optionally preceded by CR LF. -/
def is_error_line (s : String) : Bool :=
  starts_with red_escape s.data || starts_with ('\r' :: '\n' :: red_escape) s.data

/-- Event classifier: a sent error line. -/
def ev_is_error : Ev → Bool
  | Ev.send s => is_error_line s
  | _ => false

/-- Number of error lines sent in a trace. -/
def error_line_count (t : List Ev) : Nat :=
  (t.filter ev_is_error).length

/-- Event classifier: a resource-opening action. -/
def ev_is_open : Ev → Bool
  | Ev.openRes _ => true
  | Ev.openTunnel => true
  | _ => false

/-- The resource-opening actions of a trace, in order. -/
def opens_of (t : List Ev) : List Ev :=
  t.filter ev_is_open

/-- The resources belonging to the stages completed before the given outcome's
failing stage (all of them for `ok`), in opening order — the bound the claims
compare a trace's opens against. -/
def stage_opens : SetupOutcome → List Ev
  | SetupOutcome.lookupFail _ => []
  | SetupOutcome.configFail _ => []
  | SetupOutcome.bastionFail _ => []
  | SetupOutcome.tunnelFail _ => [Ev.openRes Resource.bastion]
  | SetupOutcome.targetFail _ => [Ev.openRes Resource.bastion, Ev.openTunnel]
  | SetupOutcome.ok =>
      [Ev.openRes Resource.bastion, Ev.openTunnel,
       Ev.openRes Resource.target, Ev.openRes Resource.shell]

/-! Helper lemmas classifying each sent line and splitting traces. -/

theorem data_append (s t : String) : (s ++ t).data = s.data ++ t.data := by
  cases s
  cases t
  rfl

theorem is_error_line_m_lookup (env : Env) :
    is_error_line (m_lookup env) = false := by
  simp [is_error_line, m_lookup, data_append, starts_with, red_escape]

theorem is_error_line_m_found (env : Env) :
    is_error_line (m_found env) = false := by
  simp [is_error_line, m_found, data_append, starts_with, red_escape]

theorem is_error_line_m_loading : is_error_line m_loading = false := by decide

theorem is_error_line_m_connecting (env : Env) :
    is_error_line (m_connecting env) = false := by
  simp [is_error_line, m_connecting, data_append, starts_with, red_escape]

theorem is_error_line_m_bastion_ok : is_error_line m_bastion_ok = false := by
  decide

theorem is_error_line_m_tunnel (env : Env) :
    is_error_line (m_tunnel env) = false := by
  simp [is_error_line, m_tunnel, data_append, starts_with, red_escape]

theorem is_error_line_m_tunnel_ok : is_error_line m_tunnel_ok = false := by
  decide

theorem is_error_line_m_auth (env : Env) :
    is_error_line (m_auth env) = false := by
  simp [is_error_line, m_auth, data_append, starts_with, red_escape]

theorem is_error_line_m_connected : is_error_line m_connected = false := by
  decide

theorem is_error_line_no_ip : is_error_line no_ip_msg = true := by decide

theorem is_error_line_ssh_fail (e : String) :
    is_error_line (ssh_fail_msg e) = true := by
  simp [is_error_line, ssh_fail_msg, data_append, starts_with, red_escape]

theorem error_line_count_append (a b : List Ev) :
    error_line_count (a ++ b) = error_line_count a + error_line_count b := by
  simp [error_line_count, List.filter_append]

theorem opens_of_append (a b : List Ev) :
    opens_of (a ++ b) = opens_of a ++ opens_of b := by
  simp [opens_of, List.filter_append]

/-- The C1 property of a session: the trace sends exactly one error line,
followed immediately by the websocket close, after which only the bastion
close attempt may follow; the relay loop never started; every resource opened
belongs to a stage the session completed; and if the bastion was opened its
release was attempted after the transport closed. -/
def setup_aborts_cleanly (env : Env) : Prop :=
  ∃ pre m post,
    terminal_ws env = pre ++ Ev.send m :: Ev.wsClose :: post ∧
    is_error_line m = true ∧
    error_line_count pre = 0 ∧
    (∀ ev ∈ post,
       ev = Ev.closeAttempt Resource.bastion env.bastion_close_raises) ∧
    error_line_count (terminal_ws env) = 1 ∧
    Ev.relayStart ∉ terminal_ws env ∧
    opens_of (terminal_ws env) <+: stage_opens env.outcome ∧
    (Ev.openRes Resource.bastion ∈ terminal_ws env →
       Ev.closeAttempt Resource.bastion env.bastion_close_raises ∈ post)

theorem aborts_cleanly_of_fail (env : Env) (pre : List Ev) (e : String)
    (bopen : Bool)
    (ht : terminal_ws env = pre ++ fail_tail env e bopen)
    (hcount : error_line_count pre = 0)
    (hrelay : Ev.relayStart ∉ pre)
    (hopens : opens_of pre <+: stage_opens env.outcome)
    (hbast : Ev.openRes Resource.bastion ∈ pre → bopen = true) :
    setup_aborts_cleanly env := by
  refine ⟨pre, ssh_fail_msg e,
    if bopen then [Ev.closeAttempt Resource.bastion env.bastion_close_raises]
    else [],
    ?_, is_error_line_ssh_fail e, hcount, ?_, ?_, ?_, ?_, ?_⟩
  · rw [ht]
    cases bopen <;> rfl
  · cases bopen <;> simp
  · rw [ht, error_line_count_append, hcount]
    cases bopen <;>
      simp [fail_tail, error_line_count, ev_is_error, is_error_line_ssh_fail]
  · rw [ht]
    intro hmem
    rcases List.mem_append.mp hmem with h1 | h1
    · exact hrelay h1
    · cases bopen <;> simp [fail_tail] at h1
  · rw [ht, opens_of_append]
    have hft : opens_of (fail_tail env e bopen) = [] := by
      cases bopen <;> simp [fail_tail, opens_of, ev_is_open]
    rw [hft, List.append_nil]
    exact hopens
  · rw [ht]
    intro hmem
    rcases List.mem_append.mp hmem with h1 | h1
    · have hb := hbast h1
      subst hb
      simp
    · cases bopen <;> simp [fail_tail] at h1

theorem aborts_cleanly_of_no_ip (env : Env)
    (ht : terminal_ws env = no_ip_trace env) :
    setup_aborts_cleanly env := by
  refine ⟨[Ev.send (m_lookup env)], no_ip_msg, [],
    ?_, is_error_line_no_ip, ?_, ?_, ?_, ?_, ?_, ?_⟩
  · rw [ht]
    rfl
  · simp [error_line_count, ev_is_error, is_error_line_m_lookup]
  · simp
  · rw [ht]
    simp [no_ip_trace, error_line_count, ev_is_error, is_error_line_m_lookup,
      is_error_line_no_ip]
  · rw [ht]
    simp [no_ip_trace]
  · rw [ht]
    have hop : opens_of (no_ip_trace env) = [] := by
      simp [no_ip_trace, opens_of, ev_is_open]
    rw [hop]
    exact ⟨stage_opens env.outcome, rfl⟩
  · rw [ht]
    intro hmem
    simp [no_ip_trace] at hmem

/-- C1: for every failure of a setup stage (node lookup — including a node
without a management IP — configuration, bastion connect/auth including key
loading, tunnel open, target auth/shell request including slice key loading),
the session aborts before the relay loop starts, exactly one error line is
sent just before the transport is closed, no resource of a later stage is
ever opened, and the bastion connection, when it was opened, has its release
attempted. -/
theorem terminal_setup_failure_aborts (env : Env)
    (h : env.outcome ≠ SetupOutcome.ok ∨ env.management_ip = "") :
    setup_aborts_cleanly env := by
  cases hoc : env.outcome with
  | lookupFail e =>
      apply aborts_cleanly_of_fail env [Ev.send (m_lookup env)] e false
      · simp [terminal_ws, hoc]
      · simp [error_line_count, ev_is_error, is_error_line_m_lookup]
      · simp
      · simp [opens_of, ev_is_open, hoc, stage_opens]
      · intro hmem
        simp at hmem
  | configFail e =>
      by_cases hip : env.management_ip = ""
      · apply aborts_cleanly_of_no_ip
        simp [terminal_ws, hoc, hip]
      · apply aborts_cleanly_of_fail env
          [Ev.send (m_lookup env), Ev.send (m_found env), Ev.send m_loading]
          e false
        · simp [terminal_ws, hoc, hip]
        · simp [error_line_count, ev_is_error, is_error_line_m_lookup,
            is_error_line_m_found, is_error_line_m_loading]
        · simp
        · simp [opens_of, ev_is_open, hoc, stage_opens]
        · intro hmem
          simp at hmem
  | bastionFail e =>
      by_cases hip : env.management_ip = ""
      · apply aborts_cleanly_of_no_ip
        simp [terminal_ws, hoc, hip]
      · apply aborts_cleanly_of_fail env
          [Ev.send (m_lookup env), Ev.send (m_found env), Ev.send m_loading,
           Ev.send (m_connecting env)] e false
        · simp [terminal_ws, hoc, hip]
        · simp [error_line_count, ev_is_error, is_error_line_m_lookup,
            is_error_line_m_found, is_error_line_m_loading,
            is_error_line_m_connecting]
        · simp
        · simp [opens_of, ev_is_open, hoc, stage_opens]
        · intro hmem
          simp at hmem
  | tunnelFail e =>
      by_cases hip : env.management_ip = ""
      · apply aborts_cleanly_of_no_ip
        simp [terminal_ws, hoc, hip]
      · apply aborts_cleanly_of_fail env
          [Ev.send (m_lookup env), Ev.send (m_found env), Ev.send m_loading,
           Ev.send (m_connecting env), Ev.openRes Resource.bastion,
           Ev.send m_bastion_ok, Ev.send (m_tunnel env)] e true
        · simp [terminal_ws, hoc, hip]
        · simp [error_line_count, ev_is_error, is_error_line_m_lookup,
            is_error_line_m_found, is_error_line_m_loading,
            is_error_line_m_connecting, is_error_line_m_bastion_ok,
            is_error_line_m_tunnel]
        · simp
        · simp only [hoc, stage_opens]
          have hop : opens_of
              [Ev.send (m_lookup env), Ev.send (m_found env), Ev.send m_loading,
               Ev.send (m_connecting env), Ev.openRes Resource.bastion,
               Ev.send m_bastion_ok, Ev.send (m_tunnel env)]
              = [Ev.openRes Resource.bastion] := by
            simp [opens_of, ev_is_open]
          rw [hop]
        · intro hmem
          rfl
  | targetFail e =>
      by_cases hip : env.management_ip = ""
      · apply aborts_cleanly_of_no_ip
        simp [terminal_ws, hoc, hip]
      · apply aborts_cleanly_of_fail env
          [Ev.send (m_lookup env), Ev.send (m_found env), Ev.send m_loading,
           Ev.send (m_connecting env), Ev.openRes Resource.bastion,
           Ev.send m_bastion_ok, Ev.send (m_tunnel env), Ev.openTunnel,
           Ev.send m_tunnel_ok, Ev.send (m_auth env)] e true
        · simp [terminal_ws, hoc, hip]
        · simp [error_line_count, ev_is_error, is_error_line_m_lookup,
            is_error_line_m_found, is_error_line_m_loading,
            is_error_line_m_connecting, is_error_line_m_bastion_ok,
            is_error_line_m_tunnel, is_error_line_m_tunnel_ok,
            is_error_line_m_auth]
        · simp
        · simp only [hoc, stage_opens]
          have hop : opens_of
              [Ev.send (m_lookup env), Ev.send (m_found env), Ev.send m_loading,
               Ev.send (m_connecting env), Ev.openRes Resource.bastion,
               Ev.send m_bastion_ok, Ev.send (m_tunnel env), Ev.openTunnel,
               Ev.send m_tunnel_ok, Ev.send (m_auth env)]
              = [Ev.openRes Resource.bastion, Ev.openTunnel] := by
            simp [opens_of, ev_is_open]
          rw [hop]
        · intro hmem
          rfl
  | ok =>
      have hip : env.management_ip = "" := by
        rcases h with h | h
        · exact absurd hoc h
        · exact h
      apply aborts_cleanly_of_no_ip
      simp [terminal_ws, hoc, hip]

/-- Concrete failing environment: target authentication fails after bastion
and tunnel succeeded. -/
def sample_env_fail : Env :=
  ⟨"slice1", "node1", "10.20.3.4", "ubuntu", "bastion.fabric-testbed.net",
   SetupOutcome.targetFail "Authentication failed.", EndCause.disconnect,
   false, false, false⟩

/-- C1 witness: the abort property evaluated on a concrete session whose
target-authentication stage fails. -/
theorem terminal_setup_failure_aborts_witness :
    setup_aborts_cleanly sample_env_fail :=
  terminal_setup_failure_aborts sample_env_fail (Or.inl (by decide))

/-- C2: whenever a fully set-up terminal session ends — whatever the end
cause and whether or not each close call raises — the trace ends with the
polling-duty cancellation followed by exactly one close attempt for each
resource, in the order shell, target, bastion; in particular each of the
three attempts happens even when an earlier one raised. -/
theorem terminal_teardown_shell_target_bastion (env : Env)
    (hok : env.outcome = SetupOutcome.ok) (hip : env.management_ip ≠ "") :
    ∃ pre,
      terminal_ws env =
        pre ++ [Ev.cancelPoll,
                Ev.closeAttempt Resource.shell env.shell_close_raises,
                Ev.closeAttempt Resource.target env.target_close_raises,
                Ev.closeAttempt Resource.bastion env.bastion_close_raises] ∧
      (∀ r b, Ev.closeAttempt r b ∉ pre) := by
  refine ⟨[Ev.send (m_lookup env), Ev.send (m_found env), Ev.send m_loading,
           Ev.send (m_connecting env), Ev.openRes Resource.bastion,
           Ev.send m_bastion_ok, Ev.send (m_tunnel env), Ev.openTunnel,
           Ev.send m_tunnel_ok, Ev.send (m_auth env),
           Ev.openRes Resource.target, Ev.openRes Resource.shell,
           Ev.send m_connected, Ev.relayStart, Ev.relayEnd env.relay_end],
    ?_, ?_⟩
  · simp [terminal_ws, hok, hip, teardown_trace]
  · intro r b
    simp

/-- Concrete successful environment in which every close call raises, ending
by client disconnect. -/
def sample_env_ok : Env :=
  ⟨"slice1", "node1", "10.20.3.4", "ubuntu", "bastion.fabric-testbed.net",
   SetupOutcome.ok, EndCause.disconnect, true, true, true⟩

/-- C2 witness: the teardown property evaluated on a concrete session where
all three close calls raise — each release is still attempted, in order. -/
theorem terminal_teardown_shell_target_bastion_witness :
    ∃ pre,
      terminal_ws sample_env_ok =
        pre ++ [Ev.cancelPoll,
                Ev.closeAttempt Resource.shell sample_env_ok.shell_close_raises,
                Ev.closeAttempt Resource.target sample_env_ok.target_close_raises,
                Ev.closeAttempt Resource.bastion sample_env_ok.bastion_close_raises] ∧
      (∀ r b, Ev.closeAttempt r b ∉ pre) :=
  terminal_teardown_shell_target_bastion sample_env_ok rfl (by decide)

end FabricGui
